import Mathlib

/-!
Verification of the ChiefOS moltworker ecosystem monitor (risk aggregation,
alerting, emergency-pause workflow, cross-chain message bookkeeping,
notification dispatch, scheduled report cycle).

Shallow embedding conventions:
* TypeScript `number` values that the monitor compares against decimal
  thresholds (ratios, peg deviations, percentages) are modelled as rationals.
* `bigint` values (token amounts) are modelled as integers.
* External collaborators (price oracles, reserve attestations, the R2 object
  store, chat transport HTTP calls) are modelled as explicit oracle inputs;
  the object store is a list of (key, value) pairs, newest first.
* `Date.now()` is passed in explicitly as an integer timestamp.
-/

namespace ChiefOS

/-- Four-level risk scale from src/src/ecosystem/types (RiskLevel). -/
inductive RiskLevel where
  | GREEN
  | YELLOW
  | ORANGE
  | RED
deriving DecidableEq, Repr, Fintype

/-- Position of a level in the order array ["GREEN","YELLOW","ORANGE","RED"]
used by GovernorAgent.getWorstRisk (order.indexOf). -/
def riskIndex : RiskLevel → Nat
  | .GREEN => 0
  | .YELLOW => 1
  | .ORANGE => 2
  | .RED => 3

/-- Inverse of riskIndex: order[i] in GovernorAgent.getWorstRisk. -/
def riskOfIndex : Nat → RiskLevel
  | 0 => .GREEN
  | 1 => .YELLOW
  | 2 => .ORANGE
  | _ => .RED

/-- The spec-side total order GREEN < YELLOW < ORANGE < RED, as a
boolean comparison on indices. -/
def riskLe (a b : RiskLevel) : Prop := riskIndex a ≤ riskIndex b

instance : DecidablePred fun p : RiskLevel × RiskLevel => riskLe p.1 p.2 :=
  fun p => Nat.decLe (riskIndex p.1) (riskIndex p.2)

instance riskLeDec (a b : RiskLevel) : Decidable (riskLe a b) :=
  Nat.decLe (riskIndex a) (riskIndex b)

/-- Spec-side maximum of two risk levels under GREEN<YELLOW<ORANGE<RED
(the spec phrase "maximum element of categories"). -/
def riskMax (a b : RiskLevel) : RiskLevel :=
  if riskIndex a ≤ riskIndex b then b else a

namespace GovernorAgent

/-- GovernorAgent.getWorstRisk (governor-agent.ts lines 132-140): scans the
list keeping the largest index into ["GREEN","YELLOW","ORANGE","RED"],
starting from 0, then returns order[worstIndex]. -/
def getWorstRisk (levels : List RiskLevel) : RiskLevel :=
  riskOfIndex (levels.foldl (fun worstIndex level =>
    if riskIndex level > worstIndex then riskIndex level else worstIndex) 0)

/-- GovernorAgent.RESERVE_THRESHOLDS (gold reserve, USDGB). -/
structure Thresholds where
  green : ℚ
  yellow : ℚ
  orange : ℚ
  red : ℚ
deriving DecidableEq, Repr

def RESERVE_THRESHOLDS : Thresholds :=
  { green := 1.05, yellow := 1.02, orange := 1.00, red := 0.98 }

def PEG_THRESHOLDS : Thresholds :=
  { green := 0.005, yellow := 0.01, orange := 0.02, red := 0.05 }

/-- GovernorAgent.assessReserveRisk (governor-agent.ts lines 112-117). -/
def assessReserveRisk (r : ℚ) : RiskLevel :=
  if r ≥ RESERVE_THRESHOLDS.green then .GREEN
  else if r ≥ RESERVE_THRESHOLDS.yellow then .YELLOW
  else if r ≥ RESERVE_THRESHOLDS.orange then .ORANGE
  else .RED

/-- GovernorAgent.assessPegRisk (governor-agent.ts lines 122-127). -/
def assessPegRisk (deviation : ℚ) : RiskLevel :=
  if deviation ≤ PEG_THRESHOLDS.green then .GREEN
  else if deviation ≤ PEG_THRESHOLDS.yellow then .YELLOW
  else if deviation ≤ PEG_THRESHOLDS.orange then .ORANGE
  else .RED

end GovernorAgent

/-- Alert severity scale from types (independent from RiskLevel). -/
inductive Severity where
  | LOW
  | MEDIUM
  | HIGH
  | CRITICAL
  | WARNING
deriving DecidableEq, Repr

/-- Alert record from types. The opaque data payload is omitted; decimal
formatting of numbers inside messages (toFixed) is abstracted by pctString. -/
structure Alert where
  id : String
  type : String
  severity : Severity
  message : String
  timestamp : ℤ
  acknowledged : Bool
deriving DecidableEq, Repr

/-- Rendering of a rational as a percentage inside alert messages
(the source's (x*100).toFixed(n); the exact decimal formatting is
irrelevant to every property proved here). -/
def pctString (q : ℚ) : String := toString (q * 100)

/-- Status of a bondcurve launch (types.BondcurveLaunch.status). -/
inductive LaunchStatus where
  | ACTIVE
  | COMPLETED
  | FAILED
deriving DecidableEq, Repr

/-- The slice of types.BondcurveLaunch read by MarketplaceAgent.checkAlerts. -/
structure BondcurveLaunch where
  tokenAddress : String
  symbol : String
  progressPercent : ℚ
  status : LaunchStatus
deriving DecidableEq, Repr

/-- Oracle of external metric readings for one monitoring pass. In the source
these come from stubbed getters (getGoldReserveRatio, getPegPrice,
getDeltaCollateralization) documented as placeholders for on-chain / oracle
queries; the claims quantify over their values, so they are inputs here.
goldReserveRatioVal is the value returned by USDGBAgent.getGoldReserveRatio,
deltaCollateralization by USDcaAgent.getDeltaCollateralization, and the two
peg prices by the two agents' getPegPrice. now is Date.now(). -/
structure Metrics where
  goldReserveRatioVal : ℚ
  usdgbPegPrice : ℚ
  usdcaPegPrice : ℚ
  deltaCollateralization : ℚ
  launches : List BondcurveLaunch
  now : ℤ

namespace USDGBAgent

/-- USDGBAgent.PEG_THRESHOLDS (usdgb-agent.ts lines 35-40). -/
def PEG_THRESHOLDS : GovernorAgent.Thresholds :=
  { green := 0.005, yellow := 0.01, orange := 0.02, red := 0.05 }

/-- USDGBAgent.RESERVE_THRESHOLDS (usdgb-agent.ts lines 43-48). -/
def RESERVE_THRESHOLDS : GovernorAgent.Thresholds :=
  { green := 1.05, yellow := 1.02, orange := 1.00, red := 0.98 }

/-- USDGBAgent.getPegDeviation: Math.abs(currentPrice - 1.00). -/
def getPegDeviation (m : Metrics) : ℚ := |m.usdgbPegPrice - 1|

/-- USDGBAgent.checkAlerts (usdgb-agent.ts lines 184-236): a reserve-ratio
alert (CRITICAL below red, HIGH below orange), then a peg alert (CRITICAL
above red, HIGH above orange). -/
def checkAlerts (m : Metrics) : List Alert :=
  let reserveRat := m.goldReserveRatioVal
  let reserveAlerts : List Alert :=
    if reserveRat < RESERVE_THRESHOLDS.red then
      [{ id := "USDGB-RESERVE-" ++ toString m.now,
         type := "CRITICAL_RESERVE_RATIO",
         severity := .CRITICAL,
         message := "USDGB gold reserve ratio at " ++ pctString reserveRat
           ++ "% - BELOW 100%",
         timestamp := m.now, acknowledged := false }]
    else if reserveRat < RESERVE_THRESHOLDS.orange then
      [{ id := "USDGB-RESERVE-" ++ toString m.now,
         type := "LOW_RESERVE_RATIO",
         severity := .HIGH,
         message := "USDGB gold reserve ratio at " ++ pctString reserveRat ++ "%",
         timestamp := m.now, acknowledged := false }]
    else []
  let pegDeviation := getPegDeviation m
  let pegAlerts : List Alert :=
    if pegDeviation > PEG_THRESHOLDS.red then
      [{ id := "USDGB-PEG-" ++ toString m.now,
         type := "CRITICAL_PEG_DEVIATION",
         severity := .CRITICAL,
         message := "USDGB peg deviation at " ++ pctString pegDeviation
           ++ "% - CRITICAL",
         timestamp := m.now, acknowledged := false }]
    else if pegDeviation > PEG_THRESHOLDS.orange then
      [{ id := "USDGB-PEG-" ++ toString m.now,
         type := "HIGH_PEG_DEVIATION",
         severity := .HIGH,
         message := "USDGB peg deviation at " ++ pctString pegDeviation ++ "%",
         timestamp := m.now, acknowledged := false }]
    else []
  reserveAlerts ++ pegAlerts

end USDGBAgent

namespace USDcaAgent

/-- USDcaAgent.PEG_THRESHOLDS (usdca-agent.ts lines 35-40). -/
def PEG_THRESHOLDS : GovernorAgent.Thresholds :=
  { green := 0.005, yellow := 0.01, orange := 0.02, red := 0.05 }

/-- USDcaAgent.COLLATERAL_THRESHOLDS (usdca-agent.ts lines 43-48):
delta-neutral collateralization thresholds for the synthetic instrument. -/
def COLLATERAL_THRESHOLDS : GovernorAgent.Thresholds :=
  { green := 1.10, yellow := 1.05, orange := 1.02, red := 1.00 }

/-- USDcaAgent.getPegDeviation: Math.abs(currentPrice - 1.00). -/
def getPegDeviation (m : Metrics) : ℚ := |m.usdcaPegPrice - 1|

/-- USDcaAgent.checkAlerts (usdca-agent.ts lines 174-217): a peg alert
(CRITICAL above red, HIGH above orange), then a collateralization alert
(CRITICAL below red = 1.00; no milder tier exists in the source). -/
def checkAlerts (m : Metrics) : List Alert :=
  let deviation := getPegDeviation m
  let collateralization := m.deltaCollateralization
  let pegAlerts : List Alert :=
    if deviation > PEG_THRESHOLDS.red then
      [{ id := "USDca-PEG-" ++ toString m.now,
         type := "CRITICAL_PEG_DEVIATION",
         severity := .CRITICAL,
         message := "USDca peg deviation at " ++ pctString deviation
           ++ "% - CRITICAL",
         timestamp := m.now, acknowledged := false }]
    else if deviation > PEG_THRESHOLDS.orange then
      [{ id := "USDca-PEG-" ++ toString m.now,
         type := "HIGH_PEG_DEVIATION",
         severity := .HIGH,
         message := "USDca peg deviation at " ++ pctString deviation ++ "%",
         timestamp := m.now, acknowledged := false }]
    else []
  let collateralAlerts : List Alert :=
    if collateralization < COLLATERAL_THRESHOLDS.red then
      [{ id := "USDca-COLLAT-" ++ toString m.now,
         type := "CRITICAL_UNDERCOLLATERALIZATION",
         severity := .CRITICAL,
         message := "USDca delta-neutral collateralization at "
           ++ pctString collateralization ++ "% - CRITICAL",
         timestamp := m.now, acknowledged := false }]
    else []
  pegAlerts ++ collateralAlerts

end USDcaAgent

namespace MarketplaceAgent

/-- MarketplaceAgent.checkAlerts (marketplace-agent.ts lines 98-120): one
LOW alert per active launch at or above 90% progress. -/
def checkAlerts (m : Metrics) : List Alert :=
  m.launches.filterMap fun launch =>
    if launch.progressPercent ≥ 90 ∧ launch.status = .ACTIVE then
      some { id := "MARKETPLACE-LAUNCH-" ++ launch.tokenAddress,
             type := "LAUNCH_NEAR_COMPLETION",
             severity := .LOW,
             message := "Launch " ++ launch.symbol ++ " at "
               ++ toString launch.progressPercent ++ "% - near completion",
             timestamp := m.now, acknowledged := false }
    else none

end MarketplaceAgent

/-- types.RiskStatus.categories. -/
structure RiskCategories where
  collateral : RiskLevel
  peg : RiskLevel
  liquidity : RiskLevel
  crossChain : RiskLevel
deriving DecidableEq, Repr

/-- types.RiskStatus. -/
structure RiskStatus where
  overall : RiskLevel
  categories : RiskCategories
  alerts : List Alert
  lastUpdated : ℤ
deriving DecidableEq, Repr

namespace GovernorAgent

/-- GovernorAgent.getRiskStatus (governor-agent.ts lines 69-107): classifies
the gold reserve ratio and the larger of the two peg deviations, hardcodes
liquidity and crossChain to GREEN (source TODO stubs), concatenates the
agents' alerts in call order, and sets overall via getWorstRisk over
Object.values(categories) = [collateral, peg, liquidity, crossChain]. -/
def getRiskStatus (m : Metrics) : RiskStatus :=
  let usdgbPegDeviation := USDGBAgent.getPegDeviation m
  let usdcaPegDeviation := USDcaAgent.getPegDeviation m
  let collateralRisk := assessReserveRisk m.goldReserveRatioVal
  let pegRisk := assessPegRisk (max usdgbPegDeviation usdcaPegDeviation)
  let liquidityRisk : RiskLevel := .GREEN
  let crossChainRisk : RiskLevel := .GREEN
  let allAlerts := USDGBAgent.checkAlerts m ++ USDcaAgent.checkAlerts m
    ++ MarketplaceAgent.checkAlerts m
  let categories : RiskCategories :=
    { collateral := collateralRisk, peg := pegRisk,
      liquidity := liquidityRisk, crossChain := crossChainRisk }
  { overall := getWorstRisk [categories.collateral, categories.peg,
      categories.liquidity, categories.crossChain],
    categories := categories,
    alerts := allAlerts,
    lastUpdated := m.now }

end GovernorAgent

namespace GovernorAgentWrapper

/-- The overall computation of GovernorAgentWrapper.generateReport
(ecosystem/index.ts line 178): riskLevels = [collateralRisk, pegRisk];
overall = includes RED then RED, else includes ORANGE ... else GREEN. -/
def wrapperOverall (collateralRisk pegRisk : RiskLevel) : RiskLevel :=
  let riskLevels := [collateralRisk, pegRisk]
  if RiskLevel.RED ∈ riskLevels then .RED
  else if RiskLevel.ORANGE ∈ riskLevels then .ORANGE
  else if RiskLevel.YELLOW ∈ riskLevels then .YELLOW
  else .GREEN

/-- The riskStatus embedded in GovernorAgentWrapper.generateReport
(ecosystem/index.ts lines 161-195): alerts aggregated exactly as the
governor does, but collateral classified inline from the USDGB reserve
ratio and peg classified inline from the USDca peg deviation ONLY
(usdcaPeg, line 170); liquidity and crossChain hardcoded GREEN. -/
def generateReportRiskStatus (m : Metrics) : RiskStatus :=
  let allAlerts := USDGBAgent.checkAlerts m ++ USDcaAgent.checkAlerts m
    ++ MarketplaceAgent.checkAlerts m
  let usdgbReserve := m.goldReserveRatioVal
  let usdcaPeg := USDcaAgent.getPegDeviation m
  let collateralRisk : RiskLevel :=
    if usdgbReserve ≥ 1.05 then .GREEN
    else if usdgbReserve ≥ 1.02 then .YELLOW
    else if usdgbReserve ≥ 1.0 then .ORANGE
    else .RED
  let pegRisk : RiskLevel :=
    if usdcaPeg ≤ 0.005 then .GREEN
    else if usdcaPeg ≤ 0.01 then .YELLOW
    else if usdcaPeg ≤ 0.02 then .ORANGE
    else .RED
  let categories : RiskCategories :=
    { collateral := collateralRisk, peg := pegRisk,
      liquidity := .GREEN, crossChain := .GREEN }
  { overall := wrapperOverall collateralRisk pegRisk,
    categories := categories,
    alerts := allAlerts,
    lastUpdated := m.now }

end GovernorAgentWrapper

/-- JSON documents, as stored in the R2 object store (all values are JSON
text; storing and re-reading a document is the identity on its JSON tree). -/
inductive Json where
  | null : Json
  | bool (b : Bool) : Json
  | num (q : ℚ) : Json
  | str (s : String) : Json
  | arr (elems : List Json) : Json
  | obj (fields : List (String × Json)) : Json

/-- Field access on a parsed JSON object (what the TypeScript code does when
it reads a property of a JSON.parse result). -/
def Json.lookupField : Json → String → Option Json
  | .obj fields, k => fields.lookup k
  | _, _ => none

/-- types.ChainSupply. supply and change24h are bigint. -/
structure ChainSupply where
  chainId : ℤ
  supply : ℤ
  change24h : ℤ
  changePercent : ℚ
deriving DecidableEq, Repr

/-- types.SupplySnapshot. totalSupply and totalChange24h are bigint. -/
structure SupplySnapshot where
  timestamp : ℤ
  token : String
  chains : List ChainSupply
  totalSupply : ℤ
  totalChange24h : ℤ
deriving DecidableEq, Repr

/-- utils.serializeWithBigInt applied to a ChainSupply: JSON.stringify with
the replacer that turns each bigint into its decimal string. -/
def serializeChainSupply (c : ChainSupply) : Json :=
  .obj [("chainId", .num c.chainId),
        ("supply", .str (toString c.supply)),
        ("change24h", .str (toString c.change24h)),
        ("changePercent", .num c.changePercent)]

/-- utils.serializeWithBigInt (src/unnamed/part_004 lines 8-12) applied to a
SupplySnapshot: JSON.stringify with the replacer that turns each bigint
(totalSupply, totalChange24h, per-chain supply and change24h) into its
decimal string; every other field is emitted as a native JSON value. -/
def serializeWithBigInt (s : SupplySnapshot) : Json :=
  .obj [("timestamp", .num s.timestamp),
        ("token", .str s.token),
        ("chains", .arr (s.chains.map serializeChainSupply)),
        ("totalSupply", .str (toString s.totalSupply)),
        ("totalChange24h", .str (toString s.totalChange24h))]

/-- The structure the round-trip claim expects back: the same snapshot with
its large-integer fields as numeric values. Spec-side definition (from the
spec words "yields an equal structure, including exact large-integer fields
surviving as the same numeric value"), for comparison with what the code
stores and re-reads. -/
def snapshotJsonNumeric (s : SupplySnapshot) : Json :=
  .obj [("timestamp", .num s.timestamp),
        ("token", .str s.token),
        ("chains", .arr (s.chains.map fun c =>
          .obj [("chainId", .num c.chainId),
                ("supply", .num c.supply),
                ("change24h", .num c.change24h),
                ("changePercent", .num c.changePercent)])),
        ("totalSupply", .num s.totalSupply),
        ("totalChange24h", .num s.totalChange24h)]

/-- The R2 bucket: (key, stored JSON document) pairs, newest first. -/
def Bucket := List (String × Json)

/-- USDGBAgent.storeSnapshot (usdgb-agent.ts lines 127-130). -/
def storeSnapshot (bucket : Bucket) (snapshot : SupplySnapshot) : Bucket :=
  ("supply-snapshots/USDGB/" ++ toString snapshot.timestamp ++ ".json",
    serializeWithBigInt snapshot) :: bucket

/-- USDGBAgent.getHistoricalSnapshot (usdgb-agent.ts lines 113-122): fetch
the object at the timestamped key and JSON.parse its text. JSON text
round-trips a stored document unchanged, so the parse result is the stored
JSON tree; the code applies NO bigint reviver, and the value is used as a
SupplySnapshot by a bare type assertion. -/
def getHistoricalSnapshot (bucket : Bucket) (timestamp : ℤ) : Option Json :=
  List.lookup ("supply-snapshots/USDGB/" ++ toString timestamp ++ ".json") bucket

/-- JavaScript subtraction with a bigint on the left, as in
USDGBAgent.calculate24hChange (currentSupply - historicalSnapshot.totalSupply).
A bigint mixed with any non-bigint operand throws TypeError, and JSON.parse
can never produce a bigint, so the only non-throwing case would need a
bigint, which the parsed tree cannot contain. -/
def bigintSubJs (_a : ℤ) (v : Json) : Except String ℤ :=
  match v with
  | _ => .error "TypeError: Cannot mix BigInt and other types, use explicit conversions"

/-- USDGBAgent.calculate24hChange (usdgb-agent.ts lines 101-108) evaluated
against the store: no historical snapshot gives 0n, otherwise the bigint
subtraction runs on the re-read totalSupply field. -/
def calculate24hChange (bucket : Bucket) (currentSupply : ℤ) (now : ℤ) :
    Except String ℤ :=
  let dayAgo := now - 24 * 60 * 60 * 1000
  match getHistoricalSnapshot bucket dayAgo with
  | none => .ok 0
  | some parsed =>
    match Json.lookupField parsed "totalSupply" with
    | none => bigintSubJs currentSupply Json.null
    | some v => bigintSubJs currentSupply v

/-- types.LayerZeroMessage.status. -/
inductive MsgStatus where
  | PENDING
  | DELIVERED
  | FAILED
deriving DecidableEq, Repr

/-- types.LayerZeroMessage. nonce is bigint; srcEid and dstEid are numbers
(LayerZero endpoint ids). -/
structure LayerZeroMessage where
  guid : String
  nonce : ℤ
  srcEid : ℤ
  srcAddress : String
  dstEid : ℤ
  dstAddress : String
  payload : String
  status : MsgStatus
deriving DecidableEq, Repr

def MsgStatus.toStr : MsgStatus → String
  | .PENDING => "PENDING"
  | .DELIVERED => "DELIVERED"
  | .FAILED => "FAILED"

/-- utils.serializeWithBigInt applied to the spread record
{...msg, verifiedAt: Date.now()} written by GovernorAgent.logMessage. -/
def serializeMessageWithBigInt (msg : LayerZeroMessage) (now : ℤ) : Json :=
  .obj [("guid", .str msg.guid),
        ("nonce", .str (toString msg.nonce)),
        ("srcEid", .num msg.srcEid),
        ("srcAddress", .str msg.srcAddress),
        ("dstEid", .num msg.dstEid),
        ("dstAddress", .str msg.dstAddress),
        ("payload", .str msg.payload),
        ("status", .str (MsgStatus.toStr msg.status)),
        ("verifiedAt", .num now)]

/-- PauseTransaction status values. The code stores the awaiting state as
the string "AWAITING_MULTISIG" (the state the spec calls AWAITING_APPROVAL:
prepared, awaiting multisig approval); APPROVED and REJECTED are the
externally-set outcomes named by the spec's data model. -/
inductive PauseStatus where
  | AWAITING_MULTISIG
  | APPROVED
  | REJECTED
deriving DecidableEq, Repr

def PauseStatus.toStr : PauseStatus → String
  | .AWAITING_MULTISIG => "AWAITING_MULTISIG"
  | .APPROVED => "APPROVED"
  | .REJECTED => "REJECTED"

/-- The pause transaction record built by GovernorAgent.prepareEmergencyPause
(governor-agent.ts lines 175-200). -/
structure PauseTx where
  txData : String
  /-- the source field is named "to" (a Lean keyword) -/
  toAddress : String
  reason : String
  preparedAt : ℤ
  preparedBy : String
  status : PauseStatus
deriving DecidableEq, Repr

def serializePauseTxWithBigInt (tx : PauseTx) : Json :=
  .obj [("txData", .str tx.txData),
        ("to", .str tx.toAddress),
        ("reason", .str tx.reason),
        ("preparedAt", .num tx.preparedAt),
        ("preparedBy", .str tx.preparedBy),
        ("status", .str (PauseStatus.toStr tx.status))]

/-- GovernorAgent emergency status flag (governor-agent.ts line 35). -/
inductive EmergencyStatus where
  | STANDBY
  | ACTIVE
  | PAUSED
deriving DecidableEq, Repr

namespace GovernorAgent

/-- The governor's mutable state: the emergency flag (initially STANDBY),
the verified-message counter (initially 0), and the R2 bucket it writes. -/
structure GovState where
  emergencyStatus : EmergencyStatus
  messagesVerified : Nat
  bucket : Bucket

def initState : GovState :=
  { emergencyStatus := .STANDBY, messagesVerified := 0, bucket := [] }

/-- The audit key of GovernorAgent.logMessage (governor-agent.ts line 165). -/
def msgKey (msg : LayerZeroMessage) : String :=
  "crosschain/" ++ toString msg.srcEid ++ "-" ++ toString msg.dstEid
    ++ "/" ++ msg.guid ++ ".json"

/-- Structural validity per GovernorAgent.verifyMessage line 149: the check
is (!msg.guid || !msg.srcEid || !msg.dstEid); a string is falsy iff empty
and a number is falsy iff zero. -/
def structurallyValid (msg : LayerZeroMessage) : Prop :=
  ¬(msg.guid = "" ∨ msg.srcEid = 0 ∨ msg.dstEid = 0)

instance (msg : LayerZeroMessage) : Decidable (structurallyValid msg) := by
  unfold structurallyValid; infer_instance

/-- GovernorAgent.verifyMessage (governor-agent.ts lines 145-159): returns
false leaving the state untouched when structural validation fails;
otherwise increments messagesVerified, persists the message via logMessage
(governor-agent.ts lines 164-170) and returns true. -/
def verifyMessage (s : GovState) (msg : LayerZeroMessage) (now : ℤ) :
    Bool × GovState :=
  if msg.guid = "" ∨ msg.srcEid = 0 ∨ msg.dstEid = 0 then
    (false, s)
  else
    (true,
      { s with
        messagesVerified := s.messagesVerified + 1,
        bucket := (msgKey msg, serializeMessageWithBigInt msg now) :: s.bucket })

/-- GovernorAgent.prepareEmergencyPause (governor-agent.ts lines 175-200):
builds the pause record with selector 0x8456cb59 and status
AWAITING_MULTISIG, persists it at emergency/pending/(now).json, sets the
emergency flag to ACTIVE, and returns the record without executing anything. -/
def prepareEmergencyPause (s : GovState) (contractAddress reason : String)
    (now : ℤ) : PauseTx × GovState :=
  let pauseTx : PauseTx :=
    { txData := "0x8456cb59", toAddress := contractAddress, reason := reason,
      preparedAt := now, preparedBy := "governor-agent",
      status := .AWAITING_MULTISIG }
  (pauseTx,
    { s with
      emergencyStatus := .ACTIVE,
      bucket := ("emergency/pending/" ++ toString now ++ ".json",
        serializePauseTxWithBigInt pauseTx) :: s.bucket })

/-- The state-affecting operations the system itself can run on the governor.
getRiskStatus and generateReport read metrics but never write the state. -/
inductive GovOp where
  | verifyMsg (msg : LayerZeroMessage) (now : ℤ)
  | preparePause (contractAddress reason : String) (now : ℤ)
  | riskStatusQuery (m : Metrics)
  | reportQuery (m : Metrics)

def applyOp (s : GovState) : GovOp → GovState
  | .verifyMsg msg now => (verifyMessage s msg now).2
  | .preparePause contractAddress reason now =>
      (prepareEmergencyPause s contractAddress reason now).2
  | .riskStatusQuery _ => s
  | .reportQuery _ => s

/-- State reached from the initial governor state by a sequence of
operations. -/
def runOps (ops : List GovOp) : GovState := ops.foldl applyOp initState

end GovernorAgent

/-- The notification-related bindings of types.EcosystemEnv. Optional
bindings may be absent (undefined). ECOSYSTEM_ENABLED is the feature flag
compared against the string "true". -/
structure Env where
  ECOSYSTEM_ENABLED : String
  TELEGRAM_BOT_TOKEN : Option String
  TELEGRAM_CHAT_ID : Option String
  DISCORD_BOT_TOKEN : Option String
  DISCORD_CHANNEL_OPS : Option String
deriving DecidableEq, Repr

/-- JavaScript falsiness of an optional string binding: absent or empty. -/
def isFalsy (o : Option String) : Bool :=
  match o with
  | none => true
  | some s => s.isEmpty

/-- The structured result every send returns (never a thrown exception). -/
structure SendResult where
  success : Bool
  error : Option String
deriving DecidableEq, Repr

/-- Outcome of one outbound HTTP call, an external collaborator: the request
succeeds, the API answers with an error (carrying the error description the
code extracts from the response), or the fetch itself fails. -/
inductive ApiOutcome where
  | ok
  | apiError (desc : Option String)
  | networkError (e : String)
deriving DecidableEq, Repr

/-- notifications.sendTelegramMessage (notifications.ts lines 11-52):
missing bot token, then missing chat id (argument falling back to
TELEGRAM_CHAT_ID) give structured failures; otherwise the API outcome is
mapped to a structured result. The message text never affects the result. -/
def sendTelegramMessage (env : Env) (api : ApiOutcome) (_text : String)
    (chatId : Option String) : SendResult :=
  if isFalsy env.TELEGRAM_BOT_TOKEN then
    { success := false, error := some "TELEGRAM_BOT_TOKEN not set" }
  else
    let targetChatId := if isFalsy chatId then env.TELEGRAM_CHAT_ID else chatId
    if isFalsy targetChatId then
      { success := false, error := some "No Chat ID available" }
    else
      match api with
      | .ok => { success := true, error := none }
      | .apiError desc => { success := false, error := desc }
      | .networkError e => { success := false, error := some e }

/-- notifications.sendDiscordMessage (notifications.ts lines 58-96): missing
bot token, then missing channel id give structured failures; otherwise the
API outcome is mapped to a structured result (the HTTP-status error string
is carried opaquely in the outcome). -/
def sendDiscordMessage (env : Env) (api : ApiOutcome) (_text : String)
    (channelId : Option String) : SendResult :=
  if isFalsy env.DISCORD_BOT_TOKEN then
    { success := false, error := some "DISCORD_BOT_TOKEN not set" }
  else if isFalsy channelId then
    { success := false, error := some "No Channel ID provided" }
  else
    match api with
    | .ok => { success := true, error := none }
    | .apiError desc => { success := false, error := desc }
    | .networkError e => { success := false, error := some e }

/-- Outcomes of the external steps of one scheduled tick. reportGen is the
outcome of EcosystemManager.generate4HourReport (including its own internal
snapshot/report puts), carrying the governor riskStatus alert list the cycle
reads on success; latestPut the outcome of the reports/latest.json put;
errorPut the outcome of the errors/(now).json put in the catch block;
discordApi and telegramApi the HTTP outcomes of the chat sends; now is
Date.now() at the error put. -/
structure CycleOracle where
  reportGen : Except String (List Alert)
  latestPut : Except String Unit
  errorPut : Except String Unit
  discordApi : ApiOutcome
  telegramApi : ApiOutcome
  now : ℤ

/-- The criticalAlerts filter of scheduled.ts lines 36-38. -/
def isCriticalAlert (a : Alert) : Bool :=
  a.severity == Severity.CRITICAL || a.severity == Severity.HIGH

/-- What one scheduled tick did: skipped because disabled, completed
normally (with the per-channel send results: ops Discord send, escalation
Telegram send, each none when skipped by config / no critical alerts), or
recovered from a failed step by writing an error record (with the crash
notification's result). An Except.error means the handler itself threw. -/
inductive CycleOutcome where
  | disabled
  | completed (opsSend : Option SendResult) (telegramSend : Option SendResult)
  | recovered (err : String) (crashSend : Option SendResult) (errorKey : String)
deriving DecidableEq, Repr

/-- The try block of handleScheduled (scheduled.ts lines 28-67): generate
the report, filter critical alerts, put reports/latest.json, send the ops
summary when DISCORD_CHANNEL_OPS is set, send the Telegram escalation when
critical alerts exist. Message texts are elided (sends ignore them). -/
def tryBody (env : Env) (oc : CycleOracle) : Except String CycleOutcome :=
  match oc.reportGen with
  | .error e => .error e
  | .ok reportAlerts =>
    let criticalAlerts := reportAlerts.filter isCriticalAlert
    match oc.latestPut with
    | .error e => .error e
    | .ok _ =>
      let opsSend :=
        if isFalsy env.DISCORD_CHANNEL_OPS then none
        else some (sendDiscordMessage env oc.discordApi "summary"
          env.DISCORD_CHANNEL_OPS)
      let telegramSend :=
        if criticalAlerts.length > 0 then
          some (sendTelegramMessage env oc.telegramApi "critical-alerts" none)
        else none
      .ok (.completed opsSend telegramSend)

/-- handleScheduled (scheduled.ts lines 13-87): no-op when the feature flag
is not "true"; otherwise run the try block and, on its failure, send the
crash notification (when DISCORD_CHANNEL_OPS is set) and put the error
record at errors/(now).json - a put the source does NOT guard, so its
failure propagates out of the handler. -/
def handleScheduled (env : Env) (oc : CycleOracle) : Except String CycleOutcome :=
  if env.ECOSYSTEM_ENABLED ≠ "true" then .ok .disabled
  else
    match tryBody env oc with
    | .ok outcome => .ok outcome
    | .error e =>
      let crashSend :=
        if isFalsy env.DISCORD_CHANNEL_OPS then none
        else some (sendDiscordMessage env oc.discordApi "crash-report"
          env.DISCORD_CHANNEL_OPS)
      match oc.errorPut with
      | .ok _ =>
          .ok (.recovered e crashSend ("errors/" ++ toString oc.now ++ ".json"))
      | .error e2 => .error e2

/-- True when the handler returned normally to its caller. -/
def cycleReturnsNormally (r : Except String CycleOutcome) : Bool :=
  match r with
  | .ok _ => true
  | .error _ => false

/-- Concrete snapshot for the serialization round-trip: supply 5 base units
on Base (chain 8453), taken at timestamp 0. -/
def snap0 : SupplySnapshot :=
  { timestamp := 0, token := "USDGB",
    chains := [{ chainId := 8453, supply := 5, change24h := 0, changePercent := 0 }],
    totalSupply := 5, totalChange24h := 0 }

/-- Metric reading where USDGB trades at 1.03 (3% off peg) while USDca holds
its peg exactly; reserves and collateralization healthy. -/
def mDiverge : Metrics :=
  { goldReserveRatioVal := 1.05, usdgbPegPrice := 1.03, usdcaPegPrice := 1,
    deltaCollateralization := 1.10, launches := [], now := 0 }

/-- Metric reading with both stablecoins exactly at peg. -/
def mEq : Metrics :=
  { goldReserveRatioVal := 1.05, usdgbPegPrice := 1, usdcaPegPrice := 1,
    deltaCollateralization := 1.10, launches := [], now := 0 }

/-- Environment with Discord ops configured and Telegram not configured. -/
def envTgMissing : Env :=
  { ECOSYSTEM_ENABLED := "true", TELEGRAM_BOT_TOKEN := none,
    TELEGRAM_CHAT_ID := none, DISCORD_BOT_TOKEN := some "discord-token",
    DISCORD_CHANNEL_OPS := some "ops-channel" }

/-- Environment with monitoring enabled and no notification channel
configured at all. -/
def envBare : Env :=
  { ECOSYSTEM_ENABLED := "true", TELEGRAM_BOT_TOKEN := none,
    TELEGRAM_CHAT_ID := none, DISCORD_BOT_TOKEN := none,
    DISCORD_CHANNEL_OPS := none }

/-- A critical peg alert as a concrete report entry. -/
def alertCrit : Alert :=
  { id := "USDGB-PEG-0", type := "CRITICAL_PEG_DEVIATION",
    severity := .CRITICAL, message := "USDGB peg deviation critical",
    timestamp := 0, acknowledged := false }

/-- Tick outcomes where every external step succeeds and the report has one
critical alert. -/
def ocHappy : CycleOracle :=
  { reportGen := .ok [alertCrit], latestPut := .ok (), errorPut := .ok (),
    discordApi := .ok, telegramApi := .ok, now := 0 }

/-- Tick outcomes where report generation fails but the error-record put
succeeds. -/
def ocRecovered : CycleOracle :=
  { reportGen := .error "boom", latestPut := .ok (), errorPut := .ok (),
    discordApi := .ok, telegramApi := .ok, now := 5 }

/-- Tick outcomes where report generation fails AND the error-record put in
the catch block also fails. -/
def ocDoubleFailure : CycleOracle :=
  { reportGen := .error "report generation failed", latestPut := .ok (),
    errorPut := .error "bucket write failed",
    discordApi := .ok, telegramApi := .ok, now := 0 }

/-! ## Helper lemmas -/

/-- getWorstRisk on a four-element list is the fold of the pairwise maximum
under GREEN < YELLOW < ORANGE < RED. -/
theorem getWorstRisk_four_eq_max : ∀ a b c d : RiskLevel,
    GovernorAgent.getWorstRisk [a, b, c, d] = riskMax (riskMax (riskMax a b) c) d := by
  decide

/-- The wrapper's includes-chain overall equals getWorstRisk over the same
two categories padded with the two hardcoded GREENs. -/
theorem wrapperOverall_eq_getWorstRisk : ∀ a b : RiskLevel,
    GovernorAgentWrapper.wrapperOverall a b =
      GovernorAgent.getWorstRisk [a, b, .GREEN, .GREEN] := by
  decide

/-- A GREEN reserve classification means the ratio is at least 1.05. -/
theorem reserve_green_ge (r : ℚ)
    (h : GovernorAgent.assessReserveRisk r = .GREEN) : 1.05 ≤ r := by
  unfold GovernorAgent.assessReserveRisk GovernorAgent.RESERVE_THRESHOLDS at h
  split_ifs at h with h1 h2 h3
  exact h1

/-- A GREEN peg classification means the deviation is at most 0.005. -/
theorem peg_green_le (d : ℚ)
    (h : GovernorAgent.assessPegRisk d = .GREEN) : d ≤ 0.005 := by
  unfold GovernorAgent.assessPegRisk GovernorAgent.PEG_THRESHOLDS at h
  split_ifs at h with h1 h2 h3
  exact h1

/-- Every governor operation either leaves the emergency flag unchanged or
sets it to ACTIVE. -/
theorem applyOp_emergency (s : GovernorAgent.GovState) (op : GovernorAgent.GovOp) :
    (GovernorAgent.applyOp s op).emergencyStatus = s.emergencyStatus
    ∨ (GovernorAgent.applyOp s op).emergencyStatus = .ACTIVE := by
  cases op with
  | verifyMsg msg now =>
    left
    show ((GovernorAgent.verifyMessage s msg now).2).emergencyStatus = s.emergencyStatus
    unfold GovernorAgent.verifyMessage
    split_ifs <;> rfl
  | preparePause contractAddress reason now => right; rfl
  | riskStatusQuery m => left; rfl
  | reportQuery m => left; rfl

/-- No operation sequence can drive the emergency flag to PAUSED: that
transition only happens by external action, which the system has no
operation for. -/
theorem runOps_not_paused (ops : List GovernorAgent.GovOp) :
    (GovernorAgent.runOps ops).emergencyStatus ≠ .PAUSED := by
  unfold GovernorAgent.runOps
  have general : ∀ l : List GovernorAgent.GovOp, ∀ s : GovernorAgent.GovState,
      s.emergencyStatus ≠ .PAUSED →
      (l.foldl GovernorAgent.applyOp s).emergencyStatus ≠ .PAUSED := by
    intro l
    induction l with
    | nil => intro s hs; exact hs
    | cons op rest ih =>
      intro s hs
      refine ih (GovernorAgent.applyOp s op) ?_
      rcases applyOp_emergency s op with h | h
      · rw [h]; exact hs
      · rw [h]; exact fun hc => EmergencyStatus.noConfusion hc
  exact general ops GovernorAgent.initState
    (fun hc => EmergencyStatus.noConfusion hc)

/-! ## Claims -/

/-- C1: for every assignment of the four risk categories drawn from
GREEN/YELLOW/ORANGE/RED, the overall level computed by getRiskStatus via
getWorstRisk equals the maximum of the four under GREEN<YELLOW<ORANGE<RED;
the overall dominates every category, all-GREEN yields GREEN, and any RED
category forces RED. -/
theorem C1_overall_is_worst_category :
    (∀ m : Metrics,
      (GovernorAgent.getRiskStatus m).overall =
        riskMax (riskMax (riskMax
          (GovernorAgent.getRiskStatus m).categories.collateral
          (GovernorAgent.getRiskStatus m).categories.peg)
          (GovernorAgent.getRiskStatus m).categories.liquidity)
          (GovernorAgent.getRiskStatus m).categories.crossChain)
    ∧ (∀ a b c d : RiskLevel,
        GovernorAgent.getWorstRisk [a, b, c, d] = riskMax (riskMax (riskMax a b) c) d
        ∧ (riskLe a (GovernorAgent.getWorstRisk [a, b, c, d])
           ∧ riskLe b (GovernorAgent.getWorstRisk [a, b, c, d])
           ∧ riskLe c (GovernorAgent.getWorstRisk [a, b, c, d])
           ∧ riskLe d (GovernorAgent.getWorstRisk [a, b, c, d]))
        ∧ ((a = .RED ∨ b = .RED ∨ c = .RED ∨ d = .RED) →
            GovernorAgent.getWorstRisk [a, b, c, d] = .RED))
    ∧ GovernorAgent.getWorstRisk [.GREEN, .GREEN, .GREEN, .GREEN] = .GREEN := by
  refine ⟨fun m => getWorstRisk_four_eq_max _ _ _ _, ?_, by decide⟩
  decide

/-- C1 witness: concrete evaluation, discharging the any-RED hypothesis at
(YELLOW, RED, GREEN, GREEN). -/
theorem C1_overall_is_worst_category_w :
    GovernorAgent.getWorstRisk [.YELLOW, .RED, .GREEN, .GREEN] = .RED :=
  (C1_overall_is_worst_category.2.1 .YELLOW .RED .GREEN .GREEN).2.2
    (Or.inr (Or.inl rfl))

/-- C2: assessReserveRisk classifies a reserve ratio exactly into the bands
GREEN at 1.05 and above, YELLOW on [1.02, 1.05), ORANGE on [1.00, 1.02),
RED below 1.00; the risk is non-increasing in the ratio; the boundary values
land in the better band; and the synthetic instrument's thresholds record
carries boundaries 1.10, 1.05, 1.02. -/
theorem C2_reserve_bands :
    (∀ r : ℚ, 0 ≤ r →
      ((GovernorAgent.assessReserveRisk r = .GREEN ↔ 1.05 ≤ r)
       ∧ (GovernorAgent.assessReserveRisk r = .YELLOW ↔ 1.02 ≤ r ∧ r < 1.05)
       ∧ (GovernorAgent.assessReserveRisk r = .ORANGE ↔ 1 ≤ r ∧ r < 1.02)
       ∧ (GovernorAgent.assessReserveRisk r = .RED ↔ r < 1)))
    ∧ (∀ r s : ℚ, 0 ≤ r → r ≤ s →
        riskIndex (GovernorAgent.assessReserveRisk s)
          ≤ riskIndex (GovernorAgent.assessReserveRisk r))
    ∧ (GovernorAgent.assessReserveRisk 1.05 = .GREEN
       ∧ GovernorAgent.assessReserveRisk 1.02 = .YELLOW
       ∧ GovernorAgent.assessReserveRisk 1 = .ORANGE)
    ∧ (USDcaAgent.COLLATERAL_THRESHOLDS.green = 1.10
       ∧ USDcaAgent.COLLATERAL_THRESHOLDS.yellow = 1.05
       ∧ USDcaAgent.COLLATERAL_THRESHOLDS.orange = 1.02) := by
  refine ⟨?_, ?_,
    by unfold GovernorAgent.assessReserveRisk GovernorAgent.RESERVE_THRESHOLDS
       norm_num,
    by norm_num [USDcaAgent.COLLATERAL_THRESHOLDS]⟩
  · intro r _
    unfold GovernorAgent.assessReserveRisk GovernorAgent.RESERVE_THRESHOLDS
    split_ifs with h1 h2 h3
    all_goals refine ⟨?_, ?_, ?_, ?_⟩
    all_goals constructor
    all_goals intro h
    all_goals first
      | rfl
      | linarith
      | exact absurd h (by decide)
      | exact ⟨by linarith, by linarith⟩
  · intro r s _ hrs
    unfold GovernorAgent.assessReserveRisk GovernorAgent.RESERVE_THRESHOLDS
    split_ifs
    all_goals simp only [riskIndex]
    all_goals first | omega | (exfalso; linarith)

/-- C2 witness: the bands and monotonicity evaluated at the concrete ratios
1.03 and 1.06. -/
theorem C2_reserve_bands_w :
    (GovernorAgent.assessReserveRisk 1.03 = .YELLOW ↔
      (1.02 : ℚ) ≤ 1.03 ∧ (1.03 : ℚ) < 1.05)
    ∧ riskIndex (GovernorAgent.assessReserveRisk 1.06)
        ≤ riskIndex (GovernorAgent.assessReserveRisk 1.03) :=
  ⟨((C2_reserve_bands.1 1.03 (by norm_num)).2.1),
   C2_reserve_bands.2.1 1.03 1.06 (by norm_num) (by norm_num)⟩

/-- C3: assessPegRisk classifies a peg deviation exactly into the bands
GREEN up to 0.005, YELLOW on (0.005, 0.01], ORANGE on (0.01, 0.02], RED
above 0.02; the risk is non-decreasing in the deviation; deviation 0 is
GREEN and deviation 0.06 is RED. -/
theorem C3_peg_bands :
    (∀ d : ℚ, 0 ≤ d →
      ((GovernorAgent.assessPegRisk d = .GREEN ↔ d ≤ 0.005)
       ∧ (GovernorAgent.assessPegRisk d = .YELLOW ↔ 0.005 < d ∧ d ≤ 0.01)
       ∧ (GovernorAgent.assessPegRisk d = .ORANGE ↔ 0.01 < d ∧ d ≤ 0.02)
       ∧ (GovernorAgent.assessPegRisk d = .RED ↔ 0.02 < d)))
    ∧ (∀ d e : ℚ, 0 ≤ d → d ≤ e →
        riskIndex (GovernorAgent.assessPegRisk d)
          ≤ riskIndex (GovernorAgent.assessPegRisk e))
    ∧ GovernorAgent.assessPegRisk 0 = .GREEN
    ∧ GovernorAgent.assessPegRisk 0.06 = .RED := by
  refine ⟨?_, ?_,
    by unfold GovernorAgent.assessPegRisk GovernorAgent.PEG_THRESHOLDS
       norm_num,
    by unfold GovernorAgent.assessPegRisk GovernorAgent.PEG_THRESHOLDS
       norm_num⟩
  · intro d _
    unfold GovernorAgent.assessPegRisk GovernorAgent.PEG_THRESHOLDS
    split_ifs with h1 h2 h3
    all_goals refine ⟨?_, ?_, ?_, ?_⟩
    all_goals constructor
    all_goals intro h
    all_goals first
      | rfl
      | linarith
      | exact absurd h (by decide)
      | exact ⟨by linarith, by linarith⟩
  · intro d e _ hde
    unfold GovernorAgent.assessPegRisk GovernorAgent.PEG_THRESHOLDS
    split_ifs
    all_goals simp only [riskIndex]
    all_goals first | omega | (exfalso; linarith)

/-- C3 witness: the bands and monotonicity evaluated at the concrete
deviations 0.008 and 0.00. -/
theorem C3_peg_bands_w :
    (GovernorAgent.assessPegRisk 0.008 = .YELLOW ↔
      (0.005 : ℚ) < 0.008 ∧ (0.008 : ℚ) ≤ 0.01)
    ∧ riskIndex (GovernorAgent.assessPegRisk 0)
        ≤ riskIndex (GovernorAgent.assessPegRisk 0.008) :=
  ⟨((C3_peg_bands.1 0.008 (by norm_num)).2.1),
   C3_peg_bands.2.1 0 0.008 (by norm_num) (by norm_num)⟩

/-- C4: each token agent's checkAlerts is empty when all of that agent's
metrics classify GREEN, and contains a CRITICAL alert whenever the peg
deviation exceeds 0.05, the gold reserve ratio is below 0.98 (gold-backed
agent), or the delta-neutral collateralization is below 1.00 (synthetic
agent). -/
theorem C4_checkAlerts_green_and_critical :
    ∀ m : Metrics,
      ((GovernorAgent.assessReserveRisk m.goldReserveRatioVal = .GREEN
        ∧ GovernorAgent.assessPegRisk (USDGBAgent.getPegDeviation m) = .GREEN) →
          USDGBAgent.checkAlerts m = [])
      ∧ ((m.deltaCollateralization ≥ USDcaAgent.COLLATERAL_THRESHOLDS.green
          ∧ GovernorAgent.assessPegRisk (USDcaAgent.getPegDeviation m) = .GREEN) →
            USDcaAgent.checkAlerts m = [])
      ∧ (USDGBAgent.getPegDeviation m > 0.05 →
          ∃ a ∈ USDGBAgent.checkAlerts m, a.severity = .CRITICAL)
      ∧ (m.goldReserveRatioVal < 0.98 →
          ∃ a ∈ USDGBAgent.checkAlerts m, a.severity = .CRITICAL)
      ∧ (USDcaAgent.getPegDeviation m > 0.05 →
          ∃ a ∈ USDcaAgent.checkAlerts m, a.severity = .CRITICAL)
      ∧ (m.deltaCollateralization < 1 →
          ∃ a ∈ USDcaAgent.checkAlerts m, a.severity = .CRITICAL) := by
  intro m
  refine ⟨?_, ?_, ?_, ?_, ?_, ?_⟩
  · rintro ⟨hg, hp⟩
    have hr := reserve_green_ge _ hg
    have hd := peg_green_le _ hp
    unfold USDGBAgent.checkAlerts USDGBAgent.RESERVE_THRESHOLDS
      USDGBAgent.PEG_THRESHOLDS
    dsimp only
    split_ifs <;> first | rfl | (exfalso; linarith)
  · rintro ⟨hc, hp⟩
    have hd := peg_green_le _ hp
    unfold USDcaAgent.COLLATERAL_THRESHOLDS at hc
    unfold USDcaAgent.checkAlerts USDcaAgent.COLLATERAL_THRESHOLDS
      USDcaAgent.PEG_THRESHOLDS
    dsimp only
    split_ifs <;> first | rfl | (exfalso; linarith)
  · intro hdev
    unfold USDGBAgent.checkAlerts USDGBAgent.RESERVE_THRESHOLDS
      USDGBAgent.PEG_THRESHOLDS
    dsimp only
    split_ifs <;> first
      | (exfalso; linarith)
      | exact ⟨_, List.mem_append_right _ (List.mem_singleton_self _), rfl⟩
  · intro hres
    unfold USDGBAgent.checkAlerts USDGBAgent.RESERVE_THRESHOLDS
      USDGBAgent.PEG_THRESHOLDS
    dsimp only
    split_ifs <;> first
      | (exfalso; linarith)
      | exact ⟨_, List.mem_append_left _ (List.mem_singleton_self _), rfl⟩
  · intro hdev
    unfold USDcaAgent.checkAlerts USDcaAgent.COLLATERAL_THRESHOLDS
      USDcaAgent.PEG_THRESHOLDS
    dsimp only
    split_ifs <;> first
      | (exfalso; linarith)
      | exact ⟨_, List.mem_append_left _ (List.mem_singleton_self _), rfl⟩
  · intro hc
    unfold USDcaAgent.checkAlerts USDcaAgent.COLLATERAL_THRESHOLDS
      USDcaAgent.PEG_THRESHOLDS
    dsimp only
    split_ifs <;> first
      | (exfalso; linarith)
      | exact ⟨_, List.mem_append_right _ (List.mem_singleton_self _), rfl⟩

/-- C4 witness: with reserve ratio 1.06, both peg prices at exactly 1.00 and
collateralization 1.12, both agents report no alerts; with collateralization
0.95 the synthetic agent reports a CRITICAL alert. -/
theorem C4_checkAlerts_green_and_critical_w :
    USDGBAgent.checkAlerts
        { goldReserveRatioVal := 1.06, usdgbPegPrice := 1, usdcaPegPrice := 1,
          deltaCollateralization := 1.12, launches := [], now := 0 } = []
    ∧ USDcaAgent.checkAlerts
        { goldReserveRatioVal := 1.06, usdgbPegPrice := 1, usdcaPegPrice := 1,
          deltaCollateralization := 1.12, launches := [], now := 0 } = []
    ∧ ∃ a ∈ USDcaAgent.checkAlerts
        { goldReserveRatioVal := 1.06, usdgbPegPrice := 1, usdcaPegPrice := 1,
          deltaCollateralization := 0.95, launches := [], now := 0 },
        a.severity = .CRITICAL := by
  refine ⟨(C4_checkAlerts_green_and_critical _).1 ⟨?_, ?_⟩,
          (C4_checkAlerts_green_and_critical _).2.1 ⟨?_, ?_⟩,
          (C4_checkAlerts_green_and_critical _).2.2.2.2.2 ?_⟩
  · unfold GovernorAgent.assessReserveRisk GovernorAgent.RESERVE_THRESHOLDS
    norm_num
  · unfold GovernorAgent.assessPegRisk GovernorAgent.PEG_THRESHOLDS
      USDGBAgent.getPegDeviation
    norm_num
  · unfold USDcaAgent.COLLATERAL_THRESHOLDS
    norm_num
  · unfold GovernorAgent.assessPegRisk GovernorAgent.PEG_THRESHOLDS
      USDcaAgent.getPegDeviation
    norm_num
  · norm_num

/-- C5: prepareEmergencyPause returns a record whose status is the awaiting
state (the string AWAITING_MULTISIG, the state the spec's data model calls
AWAITING_APPROVAL) and never APPROVED, persists it under
emergency/pending/(now).json, and sets the emergency flag to ACTIVE; across
every operation sequence the system itself can run, the only
emergency-status change any step makes is STANDBY to ACTIVE. -/
theorem C5_prepareEmergencyPause_awaits_approval :
    (∀ (s : GovernorAgent.GovState) (contractAddress reason : String) (now : ℤ),
      (GovernorAgent.prepareEmergencyPause s contractAddress reason now).1.status
          = PauseStatus.AWAITING_MULTISIG
      ∧ (GovernorAgent.prepareEmergencyPause s contractAddress reason now).1.status
          ≠ PauseStatus.APPROVED
      ∧ (GovernorAgent.prepareEmergencyPause s contractAddress reason now).2.emergencyStatus
          = EmergencyStatus.ACTIVE
      ∧ (GovernorAgent.prepareEmergencyPause s contractAddress reason now).2.bucket
          = ("emergency/pending/" ++ toString now ++ ".json",
             serializePauseTxWithBigInt
               (GovernorAgent.prepareEmergencyPause s contractAddress reason now).1)
            :: s.bucket)
    ∧ (∀ (ops : List GovernorAgent.GovOp) (op : GovernorAgent.GovOp),
        (GovernorAgent.applyOp (GovernorAgent.runOps ops) op).emergencyStatus
            = (GovernorAgent.runOps ops).emergencyStatus
        ∨ ((GovernorAgent.runOps ops).emergencyStatus = .STANDBY
           ∧ (GovernorAgent.applyOp (GovernorAgent.runOps ops) op).emergencyStatus
              = .ACTIVE)) := by
  constructor
  · intro s contractAddress reason now
    exact ⟨rfl, fun h => PauseStatus.noConfusion h, rfl, rfl⟩
  · intro ops op
    rcases applyOp_emergency (GovernorAgent.runOps ops) op with h | h
    · exact Or.inl h
    · rcases hold : (GovernorAgent.runOps ops).emergencyStatus with _ | _ | _
      · exact Or.inr ⟨rfl, h⟩
      · exact Or.inl h
      · exact absurd hold (runOps_not_paused ops)

/-- C5 witness: concrete evaluation at the initial state, and the
transition property at the singleton preparePause trace. -/
theorem C5_prepareEmergencyPause_awaits_approval_w :
    (GovernorAgent.prepareEmergencyPause GovernorAgent.initState
        "0x1234" "peg depeg" 42).1.status = PauseStatus.AWAITING_MULTISIG
    ∧ ((GovernorAgent.applyOp (GovernorAgent.runOps [])
          (.preparePause "0x1234" "peg depeg" 42)).emergencyStatus
            = (GovernorAgent.runOps []).emergencyStatus
       ∨ ((GovernorAgent.runOps []).emergencyStatus = .STANDBY
          ∧ (GovernorAgent.applyOp (GovernorAgent.runOps [])
              (.preparePause "0x1234" "peg depeg" 42)).emergencyStatus = .ACTIVE)) :=
  ⟨(C5_prepareEmergencyPause_awaits_approval.1
      GovernorAgent.initState "0x1234" "peg depeg" 42).1,
   C5_prepareEmergencyPause_awaits_approval.2 []
     (.preparePause "0x1234" "peg depeg" 42)⟩

/-- C6: verifyMessage returns true, bumps the verified-message counter by
exactly one and persists the message under
crosschain/(srcEid)-(dstEid)/(guid).json if and only if the message is
structurally valid (non-empty guid, non-zero source and destination
endpoint ids); on failure it returns false, leaving the state untouched. -/
theorem C6_verifyMessage_iff_valid :
    ∀ (s : GovernorAgent.GovState) (msg : LayerZeroMessage) (now : ℤ),
      (GovernorAgent.structurallyValid msg →
        (GovernorAgent.verifyMessage s msg now).1 = true
        ∧ (GovernorAgent.verifyMessage s msg now).2.messagesVerified
            = s.messagesVerified + 1
        ∧ (GovernorAgent.verifyMessage s msg now).2.bucket
            = (GovernorAgent.msgKey msg, serializeMessageWithBigInt msg now)
              :: s.bucket)
      ∧ (¬GovernorAgent.structurallyValid msg →
          (GovernorAgent.verifyMessage s msg now).1 = false
          ∧ (GovernorAgent.verifyMessage s msg now).2 = s)
      ∧ ((GovernorAgent.verifyMessage s msg now).1 = true
          ↔ GovernorAgent.structurallyValid msg) := by
  intro s msg now
  unfold GovernorAgent.verifyMessage GovernorAgent.structurallyValid
  by_cases h : msg.guid = "" ∨ msg.srcEid = 0 ∨ msg.dstEid = 0
  · rw [if_pos h]
    exact ⟨fun hv => absurd h hv,
           fun _ => ⟨rfl, rfl⟩,
           ⟨fun hb => Bool.noConfusion hb, fun hv => absurd h hv⟩⟩
  · rw [if_neg h]
    exact ⟨fun _ => ⟨rfl, rfl, rfl⟩,
           fun hn => absurd h hn,
           ⟨fun _ => h, fun _ => rfl⟩⟩

/-- C6 witness: a structurally valid message is verified and logged; the
same message with an empty guid is rejected with the state unchanged. -/
theorem C6_verifyMessage_iff_valid_w :
    ((GovernorAgent.verifyMessage GovernorAgent.initState
        { guid := "0xabc", nonce := 1, srcEid := 30101, srcAddress := "0xa",
          dstEid := 30184, dstAddress := "0xb", payload := "0x", status := .PENDING }
        7).1 = true
      ∧ (GovernorAgent.verifyMessage GovernorAgent.initState
          { guid := "0xabc", nonce := 1, srcEid := 30101, srcAddress := "0xa",
            dstEid := 30184, dstAddress := "0xb", payload := "0x", status := .PENDING }
          7).2.messagesVerified = GovernorAgent.initState.messagesVerified + 1
      ∧ (GovernorAgent.verifyMessage GovernorAgent.initState
          { guid := "0xabc", nonce := 1, srcEid := 30101, srcAddress := "0xa",
            dstEid := 30184, dstAddress := "0xb", payload := "0x", status := .PENDING }
          7).2.bucket
          = (GovernorAgent.msgKey
              { guid := "0xabc", nonce := 1, srcEid := 30101, srcAddress := "0xa",
                dstEid := 30184, dstAddress := "0xb", payload := "0x",
                status := .PENDING },
             serializeMessageWithBigInt
              { guid := "0xabc", nonce := 1, srcEid := 30101, srcAddress := "0xa",
                dstEid := 30184, dstAddress := "0xb", payload := "0x",
                status := .PENDING } 7) :: GovernorAgent.initState.bucket)
    ∧ (GovernorAgent.verifyMessage GovernorAgent.initState
        { guid := "", nonce := 1, srcEid := 30101, srcAddress := "0xa",
          dstEid := 30184, dstAddress := "0xb", payload := "0x", status := .PENDING }
        7).1 = false :=
  ⟨(C6_verifyMessage_iff_valid GovernorAgent.initState
      { guid := "0xabc", nonce := 1, srcEid := 30101, srcAddress := "0xa",
        dstEid := 30184, dstAddress := "0xb", payload := "0x", status := .PENDING }
      7).1 (by decide),
   ((C6_verifyMessage_iff_valid GovernorAgent.initState
      { guid := "", nonce := 1, srcEid := 30101, srcAddress := "0xa",
        dstEid := 30184, dstAddress := "0xb", payload := "0x", status := .PENDING }
      7).2.1 (by decide)).1⟩

/-- C7 counterexample: with monitoring enabled, when report generation
fails and the unguarded errors/(now).json put in the catch block also
fails, handleScheduled propagates that second failure to its caller instead
of returning normally - refuting "never throws for every outcome of the
storage steps". -/
theorem C7_counterexample_error_put_propagates :
    handleScheduled envBare ocDoubleFailure = .error "bucket write failed"
    ∧ cycleReturnsNormally (handleScheduled envBare ocDoubleFailure) = false := by
  constructor <;> rfl

/-- C7 (amended): the cycle is a no-op when monitoring is disabled, and it
returns normally for every outcome of report generation, storage and
notification, PROVIDED the error-record put in the failure handler itself
succeeds; in that case a failed report step is recovered by persisting an
error record keyed by the failure timestamp and best-effort notifying the
ops channel. -/
theorem C7_cycle_never_throws_given_error_put :
    ∀ (env : Env) (oc : CycleOracle),
      (oc.errorPut = .ok () →
        cycleReturnsNormally (handleScheduled env oc) = true)
      ∧ (env.ECOSYSTEM_ENABLED ≠ "true" →
          handleScheduled env oc = .ok .disabled)
      ∧ (∀ e, env.ECOSYSTEM_ENABLED = "true" → oc.reportGen = .error e →
          oc.errorPut = .ok () →
          handleScheduled env oc = .ok (.recovered e
            (if isFalsy env.DISCORD_CHANNEL_OPS then none
             else some (sendDiscordMessage env oc.discordApi "crash-report"
               env.DISCORD_CHANNEL_OPS))
            ("errors/" ++ toString oc.now ++ ".json"))) := by
  intro env oc
  refine ⟨?_, ?_, ?_⟩
  · intro hput
    unfold handleScheduled
    split_ifs with hen h2
    · rfl
    · cases htb : tryBody env oc with
      | ok r => rfl
      | error e => rw [hput]; rfl
    · cases htb : tryBody env oc with
      | ok r => rfl
      | error e => rw [hput]; rfl
  · intro hen
    unfold handleScheduled
    rw [if_pos hen]
  · intro e hen hrep hput
    unfold handleScheduled tryBody
    rw [if_neg (fun hne => hne hen), hrep, hput]

/-- C7 witness: concrete evaluation - the disabled flag gives a no-op, and a
failed report step with a working error put still returns normally. -/
theorem C7_cycle_never_throws_given_error_put_w :
    cycleReturnsNormally (handleScheduled envBare ocRecovered) = true
    ∧ handleScheduled
        { ECOSYSTEM_ENABLED := "false", TELEGRAM_BOT_TOKEN := none,
          TELEGRAM_CHAT_ID := none, DISCORD_BOT_TOKEN := none,
          DISCORD_CHANNEL_OPS := none } ocRecovered = .ok .disabled :=
  ⟨(C7_cycle_never_throws_given_error_put envBare ocRecovered).1 rfl,
   (C7_cycle_never_throws_given_error_put _ ocRecovered).2.1 (by decide)⟩

/-- C8: the write side serializes the bigint fields as decimal strings, but
the read side (getHistoricalSnapshot) applies plain JSON.parse with no
bigint reviver, so the re-read structure carries the string "5" where the
original had the integer 5: the round-trip does NOT yield an equal
structure, and the bigint subtraction calculate24hChange performs on the
re-read totalSupply throws a TypeError. -/
theorem C8_roundtrip_loses_bigint :
    getHistoricalSnapshot (storeSnapshot [] snap0) 0 = some (serializeWithBigInt snap0)
    ∧ Json.lookupField (serializeWithBigInt snap0) "totalSupply" = some (Json.str "5")
    ∧ snap0.totalSupply = 5
    ∧ Json.str "5" ≠ Json.num 5
    ∧ serializeWithBigInt snap0 ≠ snapshotJsonNumeric snap0
    ∧ calculate24hChange (storeSnapshot [] snap0) 7 86400000
        = .error "TypeError: Cannot mix BigInt and other types, use explicit conversions" := by
  refine ⟨rfl, rfl, rfl, fun h => Json.noConfusion h, fun h => ?_, rfl⟩
  have h5 := congrArg (fun j => Json.lookupField j "totalSupply") h
  dsimp only at h5
  rw [show Json.lookupField (serializeWithBigInt snap0) "totalSupply"
        = some (Json.str "5") from rfl,
      show Json.lookupField (snapshotJsonNumeric snap0) "totalSupply"
        = some (Json.num 5) from rfl] at h5
  exact Json.noConfusion (Option.some.inj h5)

/-- C9: each send operation returns a structured failure (never throws)
when its transport configuration is absent, and the failure is per-channel:
with the report and latest-put steps succeeding and the ops channel
configured, the cycle completes and the Discord dispatch happens whatever
the Telegram configuration or outcome is. -/
theorem C9_notification_missing_config_soft_failure :
    (∀ (env : Env) (api : ApiOutcome) (text : String) (chatId : Option String),
      isFalsy env.TELEGRAM_BOT_TOKEN = true →
        sendTelegramMessage env api text chatId
          = { success := false, error := some "TELEGRAM_BOT_TOKEN not set" })
    ∧ (∀ (env : Env) (api : ApiOutcome) (text : String) (chatId : Option String),
        isFalsy env.TELEGRAM_BOT_TOKEN = false → isFalsy chatId = true →
        isFalsy env.TELEGRAM_CHAT_ID = true →
          sendTelegramMessage env api text chatId
            = { success := false, error := some "No Chat ID available" })
    ∧ (∀ (env : Env) (api : ApiOutcome) (text : String) (channelId : Option String),
        isFalsy env.DISCORD_BOT_TOKEN = true →
          sendDiscordMessage env api text channelId
            = { success := false, error := some "DISCORD_BOT_TOKEN not set" })
    ∧ (∀ (env : Env) (api : ApiOutcome) (text : String) (channelId : Option String),
        isFalsy env.DISCORD_BOT_TOKEN = false → isFalsy channelId = true →
          sendDiscordMessage env api text channelId
            = { success := false, error := some "No Channel ID provided" })
    ∧ (∀ (env : Env) (oc : CycleOracle) (alerts : List Alert),
        env.ECOSYSTEM_ENABLED = "true" → oc.reportGen = .ok alerts →
        oc.latestPut = .ok () → isFalsy env.DISCORD_CHANNEL_OPS = false →
          handleScheduled env oc = .ok (.completed
            (some (sendDiscordMessage env oc.discordApi "summary"
              env.DISCORD_CHANNEL_OPS))
            (if (alerts.filter isCriticalAlert).length > 0 then
              some (sendTelegramMessage env oc.telegramApi "critical-alerts" none)
             else none))) := by
  refine ⟨?_, ?_, ?_, ?_, ?_⟩
  · intro env api text chatId h
    simp [sendTelegramMessage, h]
  · intro env api text chatId h1 h2 h3
    simp [sendTelegramMessage, h1, h2, h3]
  · intro env api text channelId h
    simp [sendDiscordMessage, h]
  · intro env api text channelId h1 h2
    simp [sendDiscordMessage, h1, h2]
  · intro env oc alerts hen hrep hput hops
    unfold handleScheduled tryBody
    rw [if_neg (fun hne => hne hen), hrep, hput]
    simp [hops]

/-- C9 witness: with Telegram unconfigured, Discord configured and one
critical alert, the Telegram send reports the missing token as a structured
failure while the cycle completes with a successful Discord dispatch. -/
theorem C9_notification_missing_config_soft_failure_w :
    sendTelegramMessage envTgMissing .ok "critical-alerts" none
      = { success := false, error := some "TELEGRAM_BOT_TOKEN not set" }
    ∧ handleScheduled envTgMissing ocHappy
      = .ok (.completed (some { success := true, error := none })
          (some { success := false, error := some "TELEGRAM_BOT_TOKEN not set" })) := by
  refine ⟨C9_notification_missing_config_soft_failure.1 envTgMissing .ok
    "critical-alerts" none rfl, ?_⟩
  have h := C9_notification_missing_config_soft_failure.2.2.2.2 envTgMissing
    ocHappy [alertCrit] rfl rfl rfl rfl
  rw [h]
  rfl

/-- C10 counterexample: with USDGB 3% off peg and USDca exactly on peg,
GovernorAgent.getRiskStatus classifies peg RED with overall RED, while the
wrapper actually invoked by the scheduled cycle - which derives peg risk
from the USDca deviation only - classifies peg GREEN with overall GREEN, so
the two implementations do not assign the same levels. -/
theorem C10_counterexample_peg_divergence :
    (GovernorAgent.getRiskStatus mDiverge).categories.peg = .RED
    ∧ (GovernorAgentWrapper.generateReportRiskStatus mDiverge).categories.peg = .GREEN
    ∧ (GovernorAgent.getRiskStatus mDiverge).overall = .RED
    ∧ (GovernorAgentWrapper.generateReportRiskStatus mDiverge).overall = .GREEN
    ∧ ¬((GovernorAgent.getRiskStatus mDiverge).categories
          = (GovernorAgentWrapper.generateReportRiskStatus mDiverge).categories
        ∧ (GovernorAgent.getRiskStatus mDiverge).overall
          = (GovernorAgentWrapper.generateReportRiskStatus mDiverge).overall) := by
  have hgb : USDGBAgent.getPegDeviation mDiverge = 0.03 := by
    unfold USDGBAgent.getPegDeviation mDiverge
    dsimp only
    rw [show (1.03 : ℚ) - 1 = 0.03 by norm_num]
    exact abs_of_nonneg (by norm_num)
  have hca : USDcaAgent.getPegDeviation mDiverge = 0 := by
    unfold USDcaAgent.getPegDeviation mDiverge
    dsimp only
    rw [show (1 : ℚ) - 1 = 0 by norm_num]
    exact abs_zero
  have hmax : max (USDGBAgent.getPegDeviation mDiverge)
      (USDcaAgent.getPegDeviation mDiverge) = 0.03 := by
    rw [hgb, hca]
    exact max_eq_left (by norm_num)
  have hpegG : (GovernorAgent.getRiskStatus mDiverge).categories.peg = .RED := by
    show GovernorAgent.assessPegRisk (max (USDGBAgent.getPegDeviation mDiverge)
      (USDcaAgent.getPegDeviation mDiverge)) = .RED
    rw [hmax]
    unfold GovernorAgent.assessPegRisk GovernorAgent.PEG_THRESHOLDS
    norm_num
  have hcolG : (GovernorAgent.getRiskStatus mDiverge).categories.collateral = .GREEN := by
    show GovernorAgent.assessReserveRisk mDiverge.goldReserveRatioVal = .GREEN
    unfold mDiverge GovernorAgent.assessReserveRisk GovernorAgent.RESERVE_THRESHOLDS
    norm_num
  have hpegW : (GovernorAgentWrapper.generateReportRiskStatus mDiverge).categories.peg
      = .GREEN := by
    unfold GovernorAgentWrapper.generateReportRiskStatus
    dsimp only
    rw [hca]
    norm_num
  have hcolW : (GovernorAgentWrapper.generateReportRiskStatus mDiverge).categories.collateral
      = .GREEN := by
    unfold GovernorAgentWrapper.generateReportRiskStatus mDiverge
    dsimp only
    norm_num
  have hovG : (GovernorAgent.getRiskStatus mDiverge).overall = .RED := by
    have e2 : (GovernorAgent.getRiskStatus mDiverge).overall
        = GovernorAgent.getWorstRisk
            [(GovernorAgent.getRiskStatus mDiverge).categories.collateral,
             (GovernorAgent.getRiskStatus mDiverge).categories.peg,
             .GREEN, .GREEN] := rfl
    rw [e2, hcolG, hpegG]
    decide
  have hovW : (GovernorAgentWrapper.generateReportRiskStatus mDiverge).overall
      = .GREEN := by
    have e1 : (GovernorAgentWrapper.generateReportRiskStatus mDiverge).overall
        = GovernorAgentWrapper.wrapperOverall
            (GovernorAgentWrapper.generateReportRiskStatus mDiverge).categories.collateral
            (GovernorAgentWrapper.generateReportRiskStatus mDiverge).categories.peg := rfl
    rw [e1, hcolW, hpegW]
    decide
  refine ⟨hpegG, hpegW, hovG, hovW, fun hcontra => ?_⟩
  obtain ⟨hcat, _⟩ := hcontra
  rw [hcat, hpegW] at hpegG
  exact RiskLevel.noConfusion hpegG

/-- C10 (amended): the wrapper derives the peg category from the USDca peg
deviation alone; whenever the USDGB peg deviation is at most the USDca one
(in particular whenever they are equal), GovernorAgent.getRiskStatus and
the wrapper's generateReport assign the same four category levels, the same
overall level and the same alert list. -/
theorem C10_wrapper_agrees_when_usdca_dominates :
    ∀ m : Metrics,
      USDGBAgent.getPegDeviation m ≤ USDcaAgent.getPegDeviation m →
      (GovernorAgent.getRiskStatus m).categories.collateral
          = (GovernorAgentWrapper.generateReportRiskStatus m).categories.collateral
      ∧ (GovernorAgent.getRiskStatus m).categories.peg
          = (GovernorAgentWrapper.generateReportRiskStatus m).categories.peg
      ∧ (GovernorAgent.getRiskStatus m).categories.liquidity
          = (GovernorAgentWrapper.generateReportRiskStatus m).categories.liquidity
      ∧ (GovernorAgent.getRiskStatus m).categories.crossChain
          = (GovernorAgentWrapper.generateReportRiskStatus m).categories.crossChain
      ∧ (GovernorAgent.getRiskStatus m).overall
          = (GovernorAgentWrapper.generateReportRiskStatus m).overall
      ∧ (GovernorAgent.getRiskStatus m).alerts
          = (GovernorAgentWrapper.generateReportRiskStatus m).alerts := by
  intro m h
  have hcol : (GovernorAgent.getRiskStatus m).categories.collateral
      = (GovernorAgentWrapper.generateReportRiskStatus m).categories.collateral := by
    unfold GovernorAgent.getRiskStatus GovernorAgentWrapper.generateReportRiskStatus
      GovernorAgent.assessReserveRisk GovernorAgent.RESERVE_THRESHOLDS
    dsimp only
    split_ifs <;> first | rfl | (exfalso; linarith)
  have hpeg : (GovernorAgent.getRiskStatus m).categories.peg
      = (GovernorAgentWrapper.generateReportRiskStatus m).categories.peg := by
    unfold GovernorAgent.getRiskStatus GovernorAgentWrapper.generateReportRiskStatus
      GovernorAgent.assessPegRisk GovernorAgent.PEG_THRESHOLDS
    dsimp only
    rw [max_eq_right h]
  refine ⟨hcol, hpeg, rfl, rfl, ?_, rfl⟩
  have e2 : (GovernorAgent.getRiskStatus m).overall
      = GovernorAgent.getWorstRisk
          [(GovernorAgent.getRiskStatus m).categories.collateral,
           (GovernorAgent.getRiskStatus m).categories.peg, .GREEN, .GREEN] := rfl
  have e1 : (GovernorAgentWrapper.generateReportRiskStatus m).overall
      = GovernorAgentWrapper.wrapperOverall
          (GovernorAgentWrapper.generateReportRiskStatus m).categories.collateral
          (GovernorAgentWrapper.generateReportRiskStatus m).categories.peg := rfl
  rw [e2, e1, wrapperOverall_eq_getWorstRisk, hcol, hpeg]

/-- C10 witness: with both stablecoins exactly at peg, both implementations
agree on every category and the overall level. -/
theorem C10_wrapper_agrees_when_usdca_dominates_w :
    (GovernorAgent.getRiskStatus mEq).categories.peg
        = (GovernorAgentWrapper.generateReportRiskStatus mEq).categories.peg
    ∧ (GovernorAgent.getRiskStatus mEq).overall
        = (GovernorAgentWrapper.generateReportRiskStatus mEq).overall :=
  ⟨(C10_wrapper_agrees_when_usdca_dominates mEq
      (by simp [USDGBAgent.getPegDeviation, USDcaAgent.getPegDeviation, mEq])).2.1,
   (C10_wrapper_agrees_when_usdca_dominates mEq
      (by simp [USDGBAgent.getPegDeviation, USDcaAgent.getPegDeviation, mEq])).2.2.2.2.1⟩

end ChiefOS
